import Mathlib

/-
Shallow embedding of the BetterNavigator repository (src/menu.py,
src/Menu.py, src/page.py, src/BetterNavigator.py): the navigation state
machine, the set-page and stop operations, the construction-time size
validation, the button registry with its dispatch predicate, the add-page
operation, and Page construction.
-/

namespace BNav

/-- NavAction enumerates the four navigation buttons of the menu
(src/menu.py lines 541-563 and src/Menu.py lines 276-298; the four bodies
are identical in both files). -/
inductive NavAction
  | first
  | prev
  | next
  | last
  deriving DecidableEq

/-- Models one navigation action on the 1-based current page index.
first_page sets the index to 1; last_page sets it to total_pages;
previous_page decrements and, below 1, wraps to total_pages; next_page
increments and, past total_pages, subtracts total_pages. Python integers
are modelled as Int. -/
def navStep (total idx : Int) : NavAction → Int
  | NavAction.first => 1
  | NavAction.last => total
  | NavAction.prev => if idx - 1 < 1 then total else idx - 1
  | NavAction.next => if idx + 1 > total then idx + 1 - total else idx + 1

/-- Runs a finite sequence of navigation actions from a starting index,
folding navStep over the list. -/
def navRun (total : Int) : List NavAction → Int → Int
  | [], idx => idx
  | a :: acts, idx => navRun total acts (navStep total idx a)

/-- Composition first_page followed by last_page, the sequence of claim C8. -/
def firstThenLast (total idx : Int) : Int :=
  navStep total (navStep total idx NavAction.first) NavAction.last

/-- Models Menu.set_page (src/menu.py 565-571, src/Menu.py 300-306): it
raises ValueError unless 0 < n <= total_pages, otherwise assigns the index.
The source message also interpolates total_pages into the message text. -/
def setPage (total n : Int) : Except String Int :=
  if ¬(0 < n ∧ n ≤ total) then
    Except.error "page_number must be between 1 and total_pages"
  else
    Except.ok n

/-- Final value of current_page_number after a set_page call that started
at index current: unchanged when set_page raised, n when it succeeded. -/
def setPageFinalIndex (total current n : Int) : Int :=
  match setPage total n with
  | Except.error _ => current
  | Except.ok m => m

/-- TResult is the outcome of a fallible chat-transport call
(message.delete or message.clear_reactions): success, discord.NotFound, or
discord.Forbidden. -/
inductive TResult
  | ok
  | notFound
  | forbidden
  deriving DecidableEq, Fintype

/-- StopTrace records the observable outcome of one Menu.stop call: the
final running flag, whether each teardown step issued its transport call,
and which exception (if any) escaped stop. -/
structure StopTrace where
  running : Bool
  deleteAttempted : Bool
  clearAttempted : Bool
  raised : Option TResult
  deriving DecidableEq

/-- Clear-reactions phase of Menu.stop (src/menu.py 505-511): when
remove_reactions_after is set the call is issued and NotFound (an early
return) and Forbidden (a pass) are both swallowed, so this phase never
raises. -/
def menuStopClearPhase (removeReactionsAfter : Bool) (clearResult : TResult)
    (deleteAttempted : Bool) : StopTrace :=
  if removeReactionsAfter then
    match clearResult with
    | TResult.ok => ⟨false, deleteAttempted, true, none⟩
    | TResult.notFound => ⟨false, deleteAttempted, true, none⟩
    | TResult.forbidden => ⟨false, deleteAttempted, true, none⟩
  else
    ⟨false, deleteAttempted, false, none⟩

/-- Models Menu.stop from src/menu.py 497-511. The first statement sets
_running to False. When remove_message_after is set, message.delete is
issued inside a try block whose only handler is discord.NotFound, and that
handler is a bare return, so on NotFound the clear phase is skipped; a
Forbidden from the delete is uncaught and escapes stop. -/
def menuStop (removeMessageAfter removeReactionsAfter : Bool)
    (deleteResult clearResult : TResult) : StopTrace :=
  if removeMessageAfter then
    match deleteResult with
    | TResult.notFound => ⟨false, true, false, none⟩
    | TResult.forbidden => ⟨false, true, false, some TResult.forbidden⟩
    | TResult.ok => menuStopClearPhase removeReactionsAfter clearResult true
  else
    menuStopClearPhase removeReactionsAfter clearResult false

/-- VPage is a page as seen by the size validation: a plain page carrying
the length of its rendered content, or an embedded page carrying the total
embed length and the embed description length that the source intended to
compare against 6000 and 2048. -/
inductive VPage
  | plain (contentLen : Nat)
  | embedded (embedLen : Nat) (descriptionLen : Nat)
  deriving DecidableEq

/-- CheckErr is what Menu._check_message_lengths can raise: the documented
ValueError for an oversized plain page, the NameError the embedded branch
actually raises (see checkStep), and an IndexError case for out-of-range
page access, unreachable when called from the constructor. -/
inductive CheckErr
  | messageTooLong
  | nameError
  | indexError
  deriving DecidableEq

/-- CheckState is the attribute state of the menu that
_check_message_lengths touches: the pages list, current_page_number, and
the exception (if any) that escaped the check. -/
structure CheckState where
  pages : List VPage
  currentPageNumber : Nat
  errorRaised : Option CheckErr
  deriving DecidableEq

/-- One loop-iteration body of Menu._check_message_lengths
(src/Menu.py 249-258; src/BetterNavigator.py 152-161 is the same code).
For an embedded current page the source executes
self.current_page = page.embed: the right-hand side is evaluated first and
the name page is unbound there, so the statement raises NameError before
anything is written (moreover current_page is a property without a setter,
so the write itself could never rebind a page either). For a plain page it
compares len(current_page) with 2000 and raises ValueError when over. -/
def checkStep (pages : List VPage) (idx : Nat) : Option CheckErr :=
  match pages.get? (idx - 1) with
  | none => some CheckErr.indexError
  | some (VPage.embedded _ _) => some CheckErr.nameError
  | some (VPage.plain len) =>
      if len > 2000 then some CheckErr.messageTooLong else none

/-- Remaining iterations of the validation loop: k iterations left, current
page number idx. On an error the exception propagates, leaving
current_page_number at the failing value; when the loop completes the
source resets current_page_number to 1. The loop is entered with
k = total_pages - 1 because the source iterates range(1, total_pages). -/
def checkIter (pages : List VPage) : Nat → Nat → CheckState
  | 0, _ => ⟨pages, 1, none⟩
  | k + 1, idx =>
    match checkStep pages idx with
    | some e => ⟨pages, idx, some e⟩
    | none => checkIter pages k (idx + 1)

/-- Models Menu._check_message_lengths on a pages list, run from
current_page_number = 1 as the constructor does. -/
def checkMessageLengths (pages : List VPage) : CheckState :=
  checkIter pages (pages.length - 1) 1

/-- Navigation button symbols, in the order of the navigation group of
_buttons in src/menu.py 153-159. -/
def navigationButtons : List String := ["⏪", "◀️", "▶️", "⏩"]

/-- General button symbols (src/menu.py 160-162). -/
def generalButtons : List String := ["❌"]

/-- Union of the two button groups, as built for _all_buttons
(src/menu.py 165). -/
def allButtons : List String := navigationButtons ++ generalButtons

/-- Models the property Menu._show_nav_buttons (src/menu.py 189-194):
False when the menu has exactly one page, True otherwise. -/
def showNavButtons (numPages : Nat) : Bool :=
  if numPages = 1 then false else true

/-- Reactions attached to the message by display, in source order
(src/menu.py 409-421): when show_buttons is set, first every selector,
then the navigation buttons when _show_nav_buttons holds, then the general
buttons when show_general_buttons is set. -/
def attachedReactions (showButtons showGeneralButtons : Bool)
    (selectors : List String) (numPages : Nat) : List String :=
  if showButtons then
    selectors
      ++ (if showNavButtons numPages then navigationButtons else [])
      ++ (if showGeneralButtons then generalButtons else [])
  else
    []

/-- Payload fields of a raw reaction event that _check_button reads:
whether the reacting user is a bot, the message id, the user id and the
emoji rendered as a string. -/
structure Payload where
  userIsBot : Bool
  messageId : Nat
  userId : Nat
  emoji : String
  deriving DecidableEq

/-- Models Menu._check_button (src/menu.py 340-360): the user is not a
bot, the event targets the bound message, the user is a permitted
interactor, and the emoji is a key of _all_buttons. The page count does
not occur anywhere in the source predicate. -/
def checkButton (interactorIds : List Nat) (menuMessageId : Nat)
    (p : Payload) : Bool :=
  (!p.userIsBot) && (p.messageId == menuMessageId)
    && decide (p.userId ∈ interactorIds)
    && decide (p.emoji ∈ allButtons)

/-- Python list.insert for non-negative indices: inserts before position
i, clamping at the end of the list. -/
def pyListInsert {α : Type} (xs : List α) (i : Nat) (x : α) : List α :=
  xs.take i ++ x :: xs.drop i

/-- Models the body of Menu.add_page (src/menu.py 523-539): update stands
for self.update_page, the normalization also applied to every initial
page. When position is omitted (or 0, which is falsy) the source
substitutes self.total_pages for it, then inserts at the 0-based index
position - 1. -/
def addPage {α : Type} (update : α → α) (pages : List α) (page : α)
    (position : Option Nat) : List α :=
  let pos :=
    match position with
    | none => pages.length
    | some p => if p = 0 then pages.length else p
  pyListInsert pages (pos - 1) (update page)

/-- PContent is the content attribute of a Page (src/page.py): either a
string or a list of strings; Python truthiness on it is non-emptiness. -/
inductive PContent
  | str (s : String)
  | lst (xs : List String)
  deriving DecidableEq

/-- Python falsiness of a content value: the empty string and the empty
list are falsy. -/
def PContent.isFalsy : PContent → Bool
  | PContent.str s => s.isEmpty
  | PContent.lst xs => xs.isEmpty

/-- PageObj is a constructed Page (src/page.py) restricted to the fields
that the emptiness check reads, plus the footer. -/
structure PageObj where
  content : PContent
  title : String
  description : String
  footer : String
  deriving DecidableEq

/-- Models Page.__init__ from src/page.py 20-26: content, title,
description and footer default to the empty string; when content, title
and description are all falsy it raises RuntimeError, otherwise the page
is accepted with those fields. -/
def pageInit (content : PContent) (title description footer : String) :
    Except String PageObj :=
  if content.isFalsy && title.isEmpty && description.isEmpty then
    Except.error "Page is completely empty."
  else
    Except.ok ⟨content, title, description, footer⟩

/-- Helper: a single navigation step stays inside the valid page range. -/
theorem navStep_bounds (n idx : Int) (a : NavAction)
    (hn : 1 ≤ n) (h1 : 1 ≤ idx) (h2 : idx ≤ n) :
    1 ≤ navStep n idx a ∧ navStep n idx a ≤ n := by
  cases a <;> simp only [navStep] <;> (try split) <;> omega

/-- Helper: any finite sequence of navigation actions stays inside the
valid page range. -/
theorem navRun_bounds (n : Int) (acts : List NavAction) :
    ∀ idx : Int, 1 ≤ n → 1 ≤ idx → idx ≤ n →
      1 ≤ navRun n acts idx ∧ navRun n acts idx ≤ n := by
  induction acts with
  | nil =>
    intro idx _ h1 h2
    simp only [navRun]
    exact ⟨h1, h2⟩
  | cons a acts ih =>
    intro idx hn h1 h2
    have hb := navStep_bounds n idx a hn h1 h2
    simp only [navRun]
    exact ih (navStep n idx a) hn hb.1 hb.2

/-- C1: for every menu with total_pages = n at least 1 and every current
index in [1, n], each of the four navigation actions leaves the index in
[1, n]; previous_page at index 1 yields n and next_page at index n yields
1; and the invariant is preserved by every finite sequence of navigation
actions. -/
theorem nav_actions_preserve_range (n idx : Int)
    (hn : 1 ≤ n) (h1 : 1 ≤ idx) (h2 : idx ≤ n) :
    (∀ a : NavAction, 1 ≤ navStep n idx a ∧ navStep n idx a ≤ n) ∧
    navStep n 1 NavAction.prev = n ∧
    navStep n n NavAction.next = 1 ∧
    ∀ acts : List NavAction,
      1 ≤ navRun n acts idx ∧ navRun n acts idx ≤ n := by
  refine ⟨fun a => navStep_bounds n idx a hn h1 h2, ?_, ?_,
    fun acts => navRun_bounds n acts idx hn h1 h2⟩
  · simp only [navStep]
    split <;> omega
  · simp only [navStep]
    split <;> omega

/-- Witness for C1 at total_pages = 3 starting from index 1, with the
concrete action sequence previous, next, last. -/
theorem nav_actions_preserve_range_witness :
    (1 ≤ navStep 3 1 NavAction.next ∧ navStep 3 1 NavAction.next ≤ 3) ∧
    navStep 3 1 NavAction.prev = 3 ∧
    navStep 3 3 NavAction.next = 1 ∧
    (1 ≤ navRun 3 [NavAction.prev, NavAction.next, NavAction.last] 1 ∧
     navRun 3 [NavAction.prev, NavAction.next, NavAction.last] 1 ≤ 3) := by
  have h := nav_actions_preserve_range 3 1 (by decide) (by decide) (by decide)
  exact ⟨h.1 NavAction.next, h.2.1, h.2.2.1,
    h.2.2.2 [NavAction.prev, NavAction.next, NavAction.last]⟩

/-- C2 (code bug): the validation loop iterates range(1, total_pages), so
the last page is never checked. A single oversized plain page passes with
no error and the index reset to 1; an oversized final page of a 2-page
list passes as well; an oversized first page of a 2-page list does raise
at page 1, showing the first total_pages - 1 pages are checked in order. -/
theorem check_message_lengths_skips_last_page :
    checkMessageLengths [VPage.plain 2001]
      = ⟨[VPage.plain 2001], 1, none⟩ ∧
    checkMessageLengths [VPage.plain 5, VPage.plain 2001]
      = ⟨[VPage.plain 5, VPage.plain 2001], 1, none⟩ ∧
    checkMessageLengths [VPage.plain 2001, VPage.plain 5]
      = ⟨[VPage.plain 2001, VPage.plain 5], 1,
          some CheckErr.messageTooLong⟩ := by
  decide

/-- C3 counterexample: on a 1-page menu no navigation button is attached,
only the general stop button is, yet _check_button, which never reads the
page count, accepts a navigation reaction from a permitted interactor, so
a navigation symbol can still win the race. -/
theorem one_page_nav_reaction_accepted :
    attachedReactions true true [] 1 = ["❌"] ∧
    "⏪" ∈ navigationButtons ∧
    checkButton [7] 42 ⟨false, 42, 7, "⏪"⟩ = true := by
  decide

/-- C3 amended: for a 1-page session, navigation symbols are never
attached to the message (provided the configured selectors do not contain
a navigation symbol); but the dispatch predicate _check_button accepts any
payload from a permitted non-bot interactor on the bound message whose
emoji is in the full button map, independently of the page count, so
navigation reactions are still raced and dispatched. -/
theorem one_page_nav_suppression_amended (sg : Bool) (sel : List String)
    (ids : List Nat) (mid : Nat) (p : Payload)
    (hsel : ∀ b, b ∈ navigationButtons → b ∉ sel)
    (hbot : p.userIsBot = false) (hmid : p.messageId = mid)
    (hid : p.userId ∈ ids) (hemoji : p.emoji ∈ allButtons) :
    (∀ b, b ∈ navigationButtons → b ∉ attachedReactions true sg sel 1) ∧
    checkButton ids mid p = true := by
  constructor
  · intro b hb hmem
    have hns : b ∉ sel := hsel b hb
    have hng : b ∉ generalButtons := by
      fin_cases hb <;> decide
    cases sg with
    | false =>
      simp [attachedReactions, showNavButtons] at hmem
      exact hns hmem
    | true =>
      simp [attachedReactions, showNavButtons] at hmem
      rcases hmem with h | h
      · exact hns h
      · exact hng h
  · simp [checkButton, hbot, hmid, hid, hemoji]

/-- Witness for the amended C3 at a concrete 1-page configuration. -/
theorem one_page_nav_suppression_amended_witness :
    ("⏪" ∉ attachedReactions true true [] 1) ∧
    checkButton [7] 42 ⟨false, 42, 7, "◀️"⟩ = true := by
  have h := one_page_nav_suppression_amended true ([] : List String)
    [7] 42 ⟨false, 42, 7, "◀️"⟩
    (by intro b _ hc; cases hc) rfl rfl (by decide) (by decide)
  exact ⟨h.1 "⏪" (by decide), h.2⟩

/-- C4: set_page with n outside [1, total_pages] raises and leaves the
index unchanged; with n in [1, total_pages] it succeeds and sets the index
to n. -/
theorem set_page_spec (total current n : Int) :
    ((n < 1 ∨ total < n) →
      setPage total n =
        Except.error "page_number must be between 1 and total_pages" ∧
      setPageFinalIndex total current n = current) ∧
    ((1 ≤ n ∧ n ≤ total) →
      setPage total n = Except.ok n ∧
      setPageFinalIndex total current n = n) := by
  constructor
  · intro h
    have hc : ¬(0 < n ∧ n ≤ total) := by omega
    have he : setPage total n =
        Except.error "page_number must be between 1 and total_pages" := by
      simp [setPage, hc]
    exact ⟨he, by simp [setPageFinalIndex, he]⟩
  · intro h
    have hc : 0 < n ∧ n ≤ total := by omega
    have he : setPage total n = Except.ok n := by
      simp [setPage, hc]
    exact ⟨he, by simp [setPageFinalIndex, he]⟩

/-- Witness for C4 at total_pages = 3 with the out-of-range request 5 from
index 2, and with the in-range request 3. -/
theorem set_page_spec_witness :
    setPage 3 5 =
      Except.error "page_number must be between 1 and total_pages" ∧
    setPageFinalIndex 3 2 5 = 2 ∧
    setPage 3 3 = Except.ok 3 ∧
    setPageFinalIndex 3 2 3 = 3 := by
  have h1 := (set_page_spec 3 2 5).1 (by decide)
  have h2 := (set_page_spec 3 2 3).2 (by decide)
  exact ⟨h1.1, h1.2, h2.1, h2.2⟩

/-- C5 counterexample: with both remove flags set, a NotFound from the
delete step returns early from stop, so the reaction-clear step is never
attempted, and a Forbidden from the delete step escapes stop, refuting
both that each step swallows both failure kinds and that the two teardown
steps are independent. -/
theorem stop_teardown_not_independent :
    (menuStop true true TResult.notFound TResult.ok).clearAttempted
      = false ∧
    (menuStop true true TResult.forbidden TResult.ok).raised
      = some TResult.forbidden := by
  decide

/-- C5 amended: stop always clears the running flag first; an exception
escapes stop exactly when the delete step is configured and the delete
raises Forbidden; the clear step is attempted exactly when it is
configured and the delete step was skipped or succeeded. -/
theorem stop_teardown_behavior :
    ∀ (rm rr : Bool) (d c : TResult),
      (menuStop rm rr d c).running = false ∧
      ((menuStop rm rr d c).raised = none ↔
        ¬(rm = true ∧ d = TResult.forbidden)) ∧
      ((menuStop rm rr d c).clearAttempted = true ↔
        (rr = true ∧ (rm = true → d = TResult.ok))) := by
  decide

/-- Witness for the amended C5: with the delete step disabled and the
clear step configured, the clear step is attempted. -/
theorem stop_teardown_behavior_witness :
    (menuStop false true TResult.ok TResult.notFound).clearAttempted
      = true :=
  ((stop_teardown_behavior false true TResult.ok TResult.notFound).2.2).mpr
    (by decide)

/-- C6 (code bug): evaluation at the failing input. With no position
argument on a 3-page menu, add_page inserts the new page at 1-based index
3, immediately before the last page, not appended at index 4; with
position = 2 it lands at index 2 as claimed; the page count always grows
by one. -/
theorem add_page_default_inserts_before_last :
    addPage id [1, 2, 3] 9 none = [1, 2, 9, 3] ∧
    addPage id [1, 2, 3] 9 (some 2) = [1, 9, 2, 3] ∧
    (addPage id [1, 2, 3] 9 none).length = 4 := by
  decide

/-- Helper: the validation loop never writes the pages attribute. -/
theorem checkIter_pages_eq (pages : List VPage) :
    ∀ k idx : Nat, (checkIter pages k idx).pages = pages := by
  intro k
  induction k with
  | zero => intro idx; rfl
  | succ k ih =>
    intro idx
    simp only [checkIter]
    cases h : checkStep pages idx with
    | some e => rfl
    | none => exact ih (idx + 1)

/-- C7: the construction-time size validation is read-only on the page
list: for every page list, after the check completes or raises, the pages
attribute is exactly the input list. The reassignment attempted in the
embedded branch of the source raises before any write, and in any case
targets a setterless property, so no page is ever replaced by its rendered
form and no page field is written by the check. -/
theorem check_message_lengths_readonly (pages : List VPage) :
    (checkMessageLengths pages).pages = pages :=
  checkIter_pages_eq pages (pages.length - 1) 1

/-- C8: first_page followed by last_page always lands on total_pages, so
running the composed sequence twice gives the same index as running it
once, for every starting index in range. -/
theorem first_then_last_idempotent (total idx : Int)
    (_h1 : 1 ≤ idx) (_h2 : idx ≤ total) :
    firstThenLast total (firstThenLast total idx) = firstThenLast total idx ∧
    firstThenLast total idx = total := by
  simp [firstThenLast, navStep]

/-- Witness for C8 at total_pages = 3 starting from index 2. -/
theorem first_then_last_idempotent_witness :
    firstThenLast 3 (firstThenLast 3 2) = firstThenLast 3 2 ∧
    firstThenLast 3 2 = 3 :=
  first_then_last_idempotent 3 2 (by decide) (by decide)

/-- C9: every exit path of stop leaves the running flag false, whatever
the remove flags and whatever the two transport calls do, because the flag
is cleared before any transport call is issued. -/
theorem stop_always_clears_running :
    ∀ (rm rr : Bool) (d c : TResult),
      (menuStop rm rr d c).running = false := by
  decide

/-- C10: constructing a Page whose content, title and description are all
empty always raises, and every accepted Page has at least one of content,
title or description non-empty. -/
theorem page_init_requires_content (c : PContent) (t d f : String) :
    (c.isFalsy = true → t.isEmpty = true → d.isEmpty = true →
      pageInit c t d f = Except.error "Page is completely empty.") ∧
    (∀ p : PageObj, pageInit c t d f = Except.ok p →
      p.content.isFalsy = false ∨ p.title.isEmpty = false ∨
        p.description.isEmpty = false) := by
  constructor
  · intro h1 h2 h3
    simp [pageInit, h1, h2, h3]
  · intro p hp
    unfold pageInit at hp
    split at hp
    · cases hp
    · rename_i hcond
      cases hp
      rcases Bool.eq_false_or_eq_true c.isFalsy with hc | hc
      · rcases Bool.eq_false_or_eq_true t.isEmpty with ht | ht
        · rcases Bool.eq_false_or_eq_true d.isEmpty with hd | hd
          · exact absurd (by simp [hc, ht, hd]) hcond
          · exact Or.inr (Or.inr hd)
        · exact Or.inr (Or.inl ht)
      · exact Or.inl hc

/-- Witness for C10: the all-empty page raises even with a footer set, and
a page accepted with content "hi" has a non-empty field. -/
theorem page_init_requires_content_witness :
    pageInit (PContent.str "") "" "" "x"
      = Except.error "Page is completely empty." ∧
    ((PageObj.mk (PContent.str "hi") "" "" "").content.isFalsy = false ∨
     (PageObj.mk (PContent.str "hi") "" "" "").title.isEmpty = false ∨
     (PageObj.mk (PContent.str "hi") "" "" "").description.isEmpty
       = false) := by
  constructor
  · exact (page_init_requires_content (PContent.str "") "" "" "x").1
      rfl rfl rfl
  · exact (page_init_requires_content (PContent.str "hi") "" "" "").2
      ⟨PContent.str "hi", "", "", ""⟩ rfl

end BNav
